import Mathlib

/-!
Verification of the Atlas cluster-state ledger (atlas-cli).

This file gives a shallow embedding of the persistent state store, lock
manager, audit recorder and drift reconciler of the repository and proves
the claimed properties about them.

Modelling conventions:
* SQLite tables are lists of row structures kept in insertion order
  (AUTOINCREMENT ids are a `nextClusterId` counter starting at 1, as in
  SQLite).
* `CURRENT_TIMESTAMP` is an explicit `now : Int` parameter threaded through
  every write, measured in milliseconds so that the `duration_ms`
  computation of `CompleteOperation` is `now - started_at`.
* JSON marshalling of the `config` / `metadata` / `dependencies` columns is
  modelled as the identity on the already-encoded string, since both sides
  of every round trip pass through `json.Marshal` / `json.Unmarshal`.
* The driver connection is opened with a plain path and never issues
  `PRAGMA foreign_keys = ON` (mattn/go-sqlite3 leaves foreign-key
  enforcement off by default), so `DELETE FROM clusters` does not touch the
  `cluster_resources` table; `deleteClusterState` models exactly that.
* Driver-level failures are an explicit error type `SqlErr`; fallible Go
  functions become `Except SqlErr`-valued Lean functions.
-/

set_option autoImplicit false

namespace Atlas

/-- Error classes observable from the Go state-store functions: a SQLite
UNIQUE-constraint violation, `sql.ErrNoRows`, and any other storage
failure. -/
inductive SqlErr where
  | constraintUnique
  | noRows
  | ioFailure
  deriving DecidableEq, Repr

/-- One row of the `clusters` table (schema in `pkg/state/sqlite.go`,
`sqliteStateSchema`). -/
structure ClusterRow where
  id : Nat
  name : String
  provider : String
  region : String
  status : String
  nodeCount : Int
  version : String
  config : String
  metadata : String
  createdAt : Int
  updatedAt : Int
  createdBy : String
  deriving DecidableEq, Repr

/-- One row of the `cluster_resources` table. The Go schema calls the
owner column `cluster_id`, and `SaveResource` stores the cluster *name*
into it. `namespace` is a Lean keyword, hence the field name `nameSpace`. -/
structure ResourceRow where
  id : String
  clusterId : String
  resourceType : String
  resourceName : String
  nameSpace : String
  status : String
  config : String
  dependencies : String
  createdAt : Int
  updatedAt : Int
  deriving DecidableEq, Repr

/-- One row of the `state_locks` table. -/
structure LockRow where
  resourceName : String
  lockId : String
  acquiredBy : String
  acquiredAt : Int
  expiresAt : Int
  deriving DecidableEq, Repr

/-- One row of the `operation_history` table. `completedAt` and
`durationMs` are nullable columns. -/
structure OpRow where
  id : Nat
  clusterName : String
  opType : String
  opStatus : String
  startedAt : Int
  completedAt : Option Int
  durationMs : Option Int
  userId : String
  errorMessage : Option String
  deriving DecidableEq, Repr

/-- The in-memory `state.Resource` struct (`pkg/state/interfaces.go`). -/
structure Resource where
  id : String
  clusterName : String
  type : String
  name : String
  nameSpace : String
  status : String
  config : String
  dependencies : String
  createdAt : Int
  updatedAt : Int
  deriving DecidableEq, Repr

/-- The in-memory `state.ClusterState` struct: the record `SaveClusterState`
receives and `GetClusterState` returns. `id = 0` means "no assigned
identity yet", exactly the `state.ID == 0` test in `SaveClusterState`. -/
structure ClusterState where
  id : Nat
  name : String
  provider : String
  region : String
  status : String
  nodeCount : Int
  version : String
  config : String
  metadata : String
  createdAt : Int
  updatedAt : Int
  createdBy : String
  resources : List Resource
  deriving DecidableEq, Repr

/-- The provider's observed report, `providers.Cluster`
(`pkg/providers/interfaces.go`): the read side consumed for drift
comparison. Only the fields the drift comparison inspects are kept. -/
structure ProviderCluster where
  name : String
  status : String
  nodeCount : Int
  version : String
  deriving DecidableEq, Repr

/-- The SQLite database owned by one `SQLiteStateManager`. -/
structure DB where
  clusters : List ClusterRow
  resources : List ResourceRow
  nextClusterId : Nat
  deriving DecidableEq, Repr

/-- A freshly created database: empty tables, AUTOINCREMENT starts at 1. -/
def DB.empty : DB := { clusters := [], resources := [], nextClusterId := 1 }

/-- Decode a `cluster_resources` row into a `state.Resource`, as the scan
loop of `ListResources` / `GetResource` does. -/
def rowToResource (r : ResourceRow) : Resource :=
  { id := r.id, clusterName := r.clusterId, type := r.resourceType,
    name := r.resourceName, nameSpace := r.nameSpace, status := r.status,
    config := r.config, dependencies := r.dependencies,
    createdAt := r.createdAt, updatedAt := r.updatedAt }

/-- `SQLiteStateManager.ListResources`: `SELECT ... FROM cluster_resources
WHERE cluster_id = ?`. Rows are kept in insertion order, which agrees with
the query's `ORDER BY created_at ASC` for monotone insertion times. -/
def listResources (db : DB) (clusterName : String) : List Resource :=
  (db.resources.filter (fun r => r.clusterId == clusterName)).map rowToResource

/-- Decode a `clusters` row into a `state.ClusterState`, including the
eager load of the cluster's resources done at the end of
`GetClusterState`. -/
def rowToState (db : DB) (r : ClusterRow) : ClusterState :=
  { id := r.id, name := r.name, provider := r.provider, region := r.region,
    status := r.status, nodeCount := r.nodeCount, version := r.version,
    config := r.config, metadata := r.metadata,
    createdAt := r.createdAt, updatedAt := r.updatedAt,
    createdBy := r.createdBy, resources := listResources db r.name }

/-- The row lookup behind `GetClusterState`: `SELECT ... FROM clusters
WHERE name = ?` returns the first matching row or `sql.ErrNoRows`. -/
def queryClusterRow (db : DB) (name : String) : Option ClusterRow :=
  db.clusters.find? (fun r => r.name == name)

/-- The error-handling shape of `SQLiteStateManager.GetClusterState`
applied to the outcome `q` of the row scan: `sql.ErrNoRows` (modelled as
`.ok none`) becomes the non-error result `(nil, nil)`; any other driver
error is propagated unchanged; a found row is decoded. -/
def getClusterStateFrom (db : DB) (q : Except SqlErr (Option ClusterRow)) :
    Except SqlErr (Option ClusterState) :=
  match q with
  | .error e => .error e
  | .ok none => .ok none
  | .ok (some r) => .ok (some (rowToState db r))

/-- `SQLiteStateManager.GetClusterState` on a healthy database: the scan
itself succeeds and the result is decoded by `getClusterStateFrom`. -/
def getClusterState (db : DB) (name : String) :
    Except SqlErr (Option ClusterState) :=
  getClusterStateFrom db (.ok (queryClusterRow db name))

/-- The `clusters` row written by the INSERT branch of
`SaveClusterState`: `created_at` and `updated_at` take their column
default `CURRENT_TIMESTAMP`, the id comes from AUTOINCREMENT. -/
def insertedClusterRow (db : DB) (now : Int) (s : ClusterState) : ClusterRow :=
  { id := db.nextClusterId, name := s.name, provider := s.provider,
    region := s.region, status := s.status, nodeCount := s.nodeCount,
    version := s.version, config := s.config, metadata := s.metadata,
    createdAt := now, updatedAt := now, createdBy := s.createdBy }

/-- The INSERT branch of `SaveClusterState` (`state.ID == 0`): the
`UNIQUE` constraint on `clusters.name` rejects a duplicate name with a
constraint error; otherwise the row is appended and the record's `ID` is
set from `LastInsertId`. -/
def insertCluster (db : DB) (now : Int) (s : ClusterState) :
    Except SqlErr (DB × ClusterState) :=
  if (db.clusters.find? (fun r => r.name == s.name)).isSome then
    .error .constraintUnique
  else
    .ok ({ db with
            clusters := db.clusters ++ [insertedClusterRow db now s],
            nextClusterId := db.nextClusterId + 1 },
         { s with id := db.nextClusterId })

/-- Effect of the UPDATE statement of `SaveClusterState` on one `clusters`
row: a row matching the record's id receives the record's mutable columns
and `updated_at = CURRENT_TIMESTAMP`; neither `name`, `created_at` nor
`created_by` is written. Other rows are untouched. -/
def updatedClusterRow (now : Int) (s : ClusterState) (r : ClusterRow) : ClusterRow :=
  if r.id == s.id then
    { r with provider := s.provider, region := s.region,
             status := s.status, nodeCount := s.nodeCount,
             version := s.version, config := s.config,
             metadata := s.metadata, updatedAt := now }
  else r

/-- The UPDATE branch of `SaveClusterState` (`state.ID != 0`): `UPDATE
clusters SET provider, region, status, node_count, version, config,
metadata, updated_at = CURRENT_TIMESTAMP WHERE id = ?`. -/
def updateCluster (db : DB) (now : Int) (s : ClusterState) : DB :=
  { db with clusters := db.clusters.map (updatedClusterRow now s) }

/-- `SQLiteStateManager.SaveClusterState`: insert when the record has no
assigned identity, else update by identity. -/
def saveClusterState (db : DB) (now : Int) (s : ClusterState) :
    Except SqlErr (DB × ClusterState) :=
  if s.id == 0 then insertCluster db now s
  else .ok (updateCluster db now s, s)

/-- `SQLiteStateManager.DeleteClusterState`: `DELETE FROM clusters WHERE
name = ?`; zero rows affected is reported as `sql.ErrNoRows`. Because the
connection never enables foreign-key enforcement (driver default off, no
pragma issued), the declared `ON DELETE CASCADE` never runs and the
`cluster_resources` table is untouched. -/
def deleteClusterState (db : DB) (name : String) : Except SqlErr DB :=
  if (db.clusters.find? (fun r => r.name == name)).isSome then
    .ok { db with clusters := db.clusters.filter (fun r => !(r.name == name)) }
  else
    .error .noRows

/-- Whether two `cluster_resources` rows collide on a uniqueness
constraint: the primary key `id`, or the declared
`UNIQUE(cluster_id, resource_type, resource_name, namespace)` tuple. -/
def resourceConflict (a b : ResourceRow) : Bool :=
  a.id == b.id ||
    (a.clusterId == b.clusterId && a.resourceType == b.resourceType &&
     a.resourceName == b.resourceName && a.nameSpace == b.nameSpace)

/-- The `cluster_resources` row written by `SaveResource`: `cluster_id`
receives the record's `ClusterName`, `updated_at` is set to
`CURRENT_TIMESTAMP` explicitly, and `created_at` is *not* in the column
list, so the replacing insert takes the column default
`CURRENT_TIMESTAMP`. -/
def resourceToRow (r : Resource) (now : Int) : ResourceRow :=
  { id := r.id, clusterId := r.clusterName, resourceType := r.type,
    resourceName := r.name, nameSpace := r.nameSpace, status := r.status,
    config := r.config, dependencies := r.dependencies,
    createdAt := now, updatedAt := now }

/-- `SQLiteStateManager.SaveResource`: `INSERT OR REPLACE INTO
cluster_resources ...`. SQLite's OR REPLACE first deletes every existing
row that collides with the new row on any uniqueness constraint, then
inserts the new row; no conflict error is ever raised. -/
def saveResource (db : DB) (now : Int) (r : Resource) : Except SqlErr DB :=
  let row := resourceToRow r now
  .ok { db with
        resources := db.resources.filter (fun x => !(resourceConflict x row)) ++ [row] }

/-- Result of a lock-acquisition attempt: the row was granted, or the
resource is busy (the `rowsAffected == 0` error path of `AcquireLock`). -/
inductive AcqResult where
  | granted
  | busy
  deriving DecidableEq, Repr

/-- `SQLiteStateManager.AcquireLock`
(`pkg/state/sqlite/example_usage.go`): `INSERT INTO state_locks ... ON
CONFLICT(resource_name) DO UPDATE SET ... WHERE expires_at <
CURRENT_TIMESTAMP`. A missing row is inserted; a conflicting row is
overwritten only when its `expires_at` has already passed; otherwise zero
rows are affected, the table is unchanged and the call reports the busy
failure. `resource_name` is the primary key, so at most one row per
resource exists and the DO UPDATE rewrites exactly the conflicting row. -/
def acquireLock (locks : List LockRow) (now : Int)
    (resource lockId holder : String) (expiresAt : Int) :
    AcqResult × List LockRow :=
  match locks.find? (fun r => r.resourceName == resource) with
  | none =>
      (.granted, locks ++
        [{ resourceName := resource, lockId := lockId,
           acquiredBy := holder, acquiredAt := now, expiresAt := expiresAt }])
  | some r =>
      if r.expiresAt < now then
        (.granted, locks.map (fun x =>
          if x.resourceName == resource then
            { resourceName := resource, lockId := lockId,
              acquiredBy := holder, acquiredAt := now, expiresAt := expiresAt }
          else x))
      else
        (.busy, locks)

/-- `SQLiteStateManager.CompleteOperation`: `UPDATE operation_history SET
operation_status = ?, completed_at = CURRENT_TIMESTAMP, duration_ms =
(julianday('now') - julianday(started_at)) * 24 * 60 * 60 * 1000 WHERE id
= ?`. The update carries no guard on `completed_at`, never inspects rows
affected, and only a driver failure could make it return an error. -/
def completeOperation (ops : List OpRow) (now : Int) (id : Nat)
    (status : String) : Except SqlErr (List OpRow) :=
  .ok (ops.map (fun r =>
    if r.id == id then
      { r with opStatus := status, completedAt := some now,
               durationMs := some (now - r.startedAt) }
    else r))

/-- A field-level drift finding, carrying the stored and observed values,
as in the `driftMessages` strings of `clusterStatusCmd`
(`cmd/cluster.go`). -/
inductive Drift where
  | statusDrift (stored observed : String)
  | nodesDrift (stored observed : Int)
  | versionDrift (stored observed : String)
  deriving DecidableEq, Repr

/-- The drift comparison of `clusterStatusCmd` when both the stored record
and the provider report exist: `status`, then `nodeCount`, then `version`
(the latter only when the observed version is non-empty) are compared and
every mismatch is appended, in source order. -/
def driftMessages (s : ClusterState) (o : ProviderCluster) : List Drift :=
  (if s.status ≠ o.status then [.statusDrift s.status o.status] else []) ++
  (if s.nodeCount ≠ o.nodeCount then [.nodesDrift s.nodeCount o.nodeCount] else []) ++
  (if s.version ≠ o.version ∧ o.version ≠ "" then [.versionDrift s.version o.version] else [])

/-- The record written back by the `--sync` branch of `clusterStatusCmd`:
status and node count are taken from the observed cluster, the version
only when the observed version is non-empty, and `UpdatedAt` is set to
`time.Now()`. -/
def syncRecord (s : ClusterState) (o : ProviderCluster) (now : Int) : ClusterState :=
  { s with status := o.status, nodeCount := o.nodeCount,
           version := if o.version ≠ "" then o.version else s.version,
           updatedAt := now }

/-- The drift-reconciliation step of `clusterStatusCmd` for a cluster
found both in the database and at the provider: with no drift nothing
happens; with drift and no `--sync` the mismatch list is only reported;
with drift and `--sync` the corrected record is persisted through
`SaveClusterState` (whose error, if any, aborts the command). Returns the
database after the step and the reported mismatch list. -/
def clusterStatusBoth (db : DB) (now : Int) (stored : ClusterState)
    (o : ProviderCluster) (sync : Bool) : Except SqlErr (DB × List Drift) :=
  let msgs := driftMessages stored o
  if msgs.isEmpty then
    .ok (db, msgs)
  else if !sync then
    .ok (db, msgs)
  else
    match saveClusterState db now (syncRecord stored o now) with
    | .error e => .error e
    | .ok (db', _) => .ok (db', msgs)

/-! ## Shared helper lemmas and concrete fixtures -/

/-- A map whose function preserves a predicate commutes with `find?`:
used to track the single row an UPDATE statement rewrites. -/
theorem find?_map_preserve {α : Type} (f : α → α) (p : α → Bool)
    (hp : ∀ a, p (f a) = p a) (l : List α) :
    (l.map f).find? p = (l.find? p).map f := by
  rw [List.find?_map]
  have hpf : (p ∘ f) = p := funext hp
  rw [hpf]

/-- A concrete stored record used by several witnesses: the spec's drift
example, stored as `{status: running, nodeCount: 2, version: "v1.30.0"}`. -/
def demoStored : ClusterState :=
  { id := 0, name := "demo", provider := "local", region := "local",
    status := "running", nodeCount := 2, version := "v1.30.0",
    config := "{}", metadata := "{}", createdAt := 5, updatedAt := 5,
    createdBy := "u", resources := [] }

/-- The spec's drift example on the observed side:
`{status: running, nodeCount: 3, version: "v1.30.0"}`. -/
def demoObserved : ProviderCluster :=
  { name := "demo", status := "running", nodeCount := 3, version := "v1.30.0" }

/-- A concrete sub-resource fixture. -/
def demoResource : Resource :=
  { id := "demo-ingress", clusterName := "demo", type := "addon",
    name := "ingress", nameSpace := "kube-system", status := "enabled",
    config := "{}", dependencies := "[]", createdAt := 0, updatedAt := 0 }

/-! ## C1 — status without sync reports drift and performs no write -/

/-- Claim C1: when the stored record and the observed report both exist and
disagree on at least one compared field, and synchronization was not
requested, the status operation reports exactly the drift list and leaves
the database — in particular the stored ClusterRecord — unchanged. -/
theorem c1_drift_no_sync_no_write (db : DB) (now : Int) (stored : ClusterState)
    (o : ProviderCluster) (h : driftMessages stored o ≠ []) :
    clusterStatusBoth db now stored o false = .ok (db, driftMessages stored o) := by
  unfold clusterStatusBoth
  simp [List.isEmpty_iff, h]

/-- Witness for C1 at the spec's concrete drift example. -/
theorem c1_drift_no_sync_no_write_witness :
    clusterStatusBoth DB.empty 10 demoStored demoObserved false =
      .ok (DB.empty, driftMessages demoStored demoObserved) :=
  c1_drift_no_sync_no_write DB.empty 10 demoStored demoObserved (by decide)

/-! ## C2 — status with sync overwrites drifted fields and persists -/

/-- Claim C2: when the stored record (as fetched from the State Store) and
the observed report disagree and synchronization is requested, the command
persists via the State Store a record whose status and node count are the
observed values, whose version is the observed version when that is
non-empty (else unchanged), and whose `updatedAt` is the current time; a
subsequent `GetClusterState` returns exactly that corrected record. -/
theorem c2_drift_sync_persists_observed (db : DB) (now : Int) (name : String)
    (stored : ClusterState) (o : ProviderCluster)
    (hget : getClusterState db name = .ok (some stored))
    (hid : stored.id ≠ 0)
    (hdrift : driftMessages stored o ≠ []) :
    ∃ db', clusterStatusBoth db now stored o true =
        .ok (db', driftMessages stored o) ∧
      getClusterState db' name = .ok (some (syncRecord stored o now)) := by
  obtain ⟨r, hfind, hstored⟩ :
      ∃ r, db.clusters.find? (fun x => x.name == name) = some r ∧
        rowToState db r = stored := by
    unfold getClusterState getClusterStateFrom queryClusterRow at hget
    cases h : db.clusters.find? (fun x => x.name == name) with
    | none => rw [h] at hget; simp at hget
    | some r => rw [h] at hget; simp at hget; exact ⟨r, rfl, hget⟩
  have hrname : r.name = name := by
    have := List.find?_some (p := fun x : ClusterRow => x.name == name) hfind
    simpa using this
  subst hstored
  have hridz : r.id ≠ 0 := hid
  have hbeq : ((syncRecord (rowToState db r) o now).id == 0) = false := by
    simp [syncRecord, rowToState]
    exact hridz
  have hsave : saveClusterState db now (syncRecord (rowToState db r) o now) =
      .ok (updateCluster db now (syncRecord (rowToState db r) o now),
           syncRecord (rowToState db r) o now) := by
    unfold saveClusterState
    simp [hbeq]
  refine ⟨updateCluster db now (syncRecord (rowToState db r) o now), ?_, ?_⟩
  · unfold clusterStatusBoth
    simp [List.isEmpty_iff, hdrift, hsave]
  · have hp : ∀ a : ClusterRow,
        ((updatedClusterRow now (syncRecord (rowToState db r) o now) a).name == name) =
          (a.name == name) := by
      intro a
      unfold updatedClusterRow
      by_cases h : (a.id == (syncRecord (rowToState db r) o now).id) = true <;> simp [h]
    have hfind' : (updateCluster db now
          (syncRecord (rowToState db r) o now)).clusters.find?
          (fun x => x.name == name) =
        some (updatedClusterRow now (syncRecord (rowToState db r) o now) r) := by
      show (db.clusters.map
          (updatedClusterRow now (syncRecord (rowToState db r) o now))).find?
          (fun x => x.name == name) = _
      rw [find?_map_preserve _ _ hp, hfind]
      rfl
    unfold getClusterState getClusterStateFrom queryClusterRow
    rw [hfind']
    have hreq : (r.id == (syncRecord (rowToState db r) o now).id) = true := by
      simp [syncRecord, rowToState]
    simp only [updatedClusterRow, hreq, if_true]
    simp [rowToState, syncRecord, updateCluster, listResources, hrname]

/-- A one-cluster database for the C2 witness. -/
def c2db : DB :=
  { clusters := [insertedClusterRow DB.empty 10 demoStored],
    resources := [], nextClusterId := 2 }

/-- The record `GetClusterState` returns from `c2db`. -/
def c2stored : ClusterState := rowToState c2db (insertedClusterRow DB.empty 10 demoStored)

/-- Witness for C2 at the spec's concrete drift example: after sync the
stored node count becomes 3 and `updatedAt` advances to the sync time. -/
theorem c2_drift_sync_persists_observed_witness :
    getClusterState c2db "demo" = .ok (some c2stored) ∧ c2stored.id ≠ 0 ∧
    driftMessages c2stored demoObserved ≠ [] ∧
    (∃ db', clusterStatusBoth c2db 20 c2stored demoObserved true =
        .ok (db', driftMessages c2stored demoObserved) ∧
      getClusterState db' "demo" = .ok (some (syncRecord c2stored demoObserved 20))) :=
  ⟨rfl, by decide, by decide,
   c2_drift_sync_persists_observed c2db 20 "demo" c2stored demoObserved rfl
     (by decide) (by decide)⟩

/-! ## C3 — CompleteOperation is not single-shot -/

/-- An operation row freshly inserted by `StartOperation`. -/
def c3row : OpRow :=
  { id := 1, clusterName := "demo", opType := "create", opStatus := "started",
    startedAt := 0, completedAt := none, durationMs := none, userId := "u",
    errorMessage := none }

/-- The row after a first `CompleteOperation` at t = 1000. -/
def c3rowDone : OpRow :=
  { c3row with opStatus := "completed", completedAt := some 1000,
               durationMs := some 1000 }

/-- The row after a second `CompleteOperation` at t = 2500. -/
def c3rowDone2 : OpRow :=
  { c3row with opStatus := "completed", completedAt := some 2500,
               durationMs := some 2500 }

/-- Counterexample to claim C3: completing operation 1 at t = 1000 and then
again at t = 2500 — the second call succeeds instead of failing, and the
stored `durationMs` changes from 1000 to 2500, overwriting the first
completion's timing data. -/
theorem c3_complete_twice_counterexample :
    completeOperation [c3row] 1000 1 "completed" = .ok [c3rowDone] ∧
    completeOperation [c3rowDone] 2500 1 "completed" = .ok [c3rowDone2] ∧
    c3rowDone2.durationMs ≠ c3rowDone.durationMs :=
  ⟨rfl, rfl, by decide⟩

/-- Claim C3 as amended: `CompleteOperation` on any table containing a row
with the given id — including an already-completed one — succeeds and
overwrites that row's status, `completedAt` and `durationMs`, the latter
recomputed from the unchanged `startedAt` to the time of this call. -/
theorem c3_complete_twice_overwrites (ops : List OpRow) (now : Int) (i : Nat)
    (status : String) (r : OpRow)
    (hr : ops.find? (fun x => x.id == i) = some r) :
    ∃ ops', completeOperation ops now i status = .ok ops' ∧
      ops'.find? (fun x => x.id == i) =
        some { r with opStatus := status, completedAt := some now,
                      durationMs := some (now - r.startedAt) } := by
  refine ⟨_, rfl, ?_⟩
  have hp : ∀ a : OpRow,
      ((if a.id == i then
          { a with opStatus := status, completedAt := some now,
                   durationMs := some (now - a.startedAt) }
        else a).id == i) = (a.id == i) := by
    intro a
    by_cases h : (a.id == i) = true <;> simp [h]
  rw [find?_map_preserve _ _ hp, hr]
  have hid : r.id = i := by
    simpa using List.find?_some hr
  simp [hid]

/-- Witness for the amended C3, applying it to an already-completed row. -/
theorem c3_complete_twice_overwrites_witness :
    [c3rowDone].find? (fun x => x.id == 1) = some c3rowDone ∧
    (∃ ops', completeOperation [c3rowDone] 2500 1 "completed" = .ok ops' ∧
      ops'.find? (fun x => x.id == 1) =
        some { c3rowDone with opStatus := "completed", completedAt := some 2500,
                              durationMs := some (2500 - c3rowDone.startedAt) }) :=
  ⟨by decide, c3_complete_twice_overwrites [c3rowDone] 2500 1 "completed" c3rowDone (by decide)⟩

/-! ## C4 — AcquireLock grants iff absent or expired, else Busy -/

/-- Claim C4: `AcquireLock` grants the lock exactly when no lock row exists
for the resource or the existing row's `expiresAt` has already passed; when
it reports busy, the lock table — in particular the existing row — is
unchanged. The expired case is exactly the steal-after-expiry scenario. -/
theorem c4_acquire_lock_grant_iff (locks : List LockRow) (now : Int)
    (resource lockId holder : String) (expiresAt : Int) :
    ((acquireLock locks now resource lockId holder expiresAt).1 = .granted ↔
      (locks.find? (fun r => r.resourceName == resource) = none ∨
       ∃ r, locks.find? (fun r => r.resourceName == resource) = some r ∧
         r.expiresAt < now)) ∧
    ((acquireLock locks now resource lockId holder expiresAt).1 = .busy →
      (acquireLock locks now resource lockId holder expiresAt).2 = locks) := by
  unfold acquireLock
  cases h : locks.find? (fun r => r.resourceName == resource) with
  | none => simp
  | some r =>
    by_cases hexp : r.expiresAt < now
    · simp [hexp]
    · simp [hexp]

/-- A lock row held by the first holder, expiring at t = 5. -/
def c4lock : LockRow :=
  { resourceName := "c", lockId := "l1", acquiredBy := "h1",
    acquiredAt := 0, expiresAt := 5 }

/-- Witness for C4: after the first holder's lock has expired (t = 10 > 5),
an acquire by a second holder succeeds. -/
theorem c4_acquire_lock_grant_iff_witness :
    (acquireLock [c4lock] 10 "c" "l2" "h2" 20).1 = .granted :=
  (c4_acquire_lock_grant_iff [c4lock] 10 "c" "l2" "h2" 20).1.mpr
    (Or.inr ⟨c4lock, by decide, by decide⟩)

/-! ## C5 — the resource cascade never fires -/

/-- The database after saving the demo cluster at t = 1. -/
def c5db1 : DB :=
  { clusters := [insertedClusterRow DB.empty 1 demoStored],
    resources := [], nextClusterId := 2 }

/-- The database after additionally saving the demo resource at t = 2. -/
def c5db2 : DB :=
  { c5db1 with resources := [resourceToRow demoResource 2] }

/-- The database after `DeleteClusterState "demo"`: the cluster row is gone
but — foreign keys being unenforced and `cluster_id` holding the cluster
name rather than the integer id the constraint references — the resource
row survives. -/
def c5db3 : DB :=
  { c5db2 with clusters := [] }

/-- Claim C5 fails on the code: saving a cluster, saving a child resource,
and deleting the cluster leaves `ListResources` non-empty — the declared
`ON DELETE CASCADE` never runs because the connection never enables
foreign-key enforcement and the resource rows key `cluster_id` by cluster
name while the constraint references `clusters(id)`. -/
theorem c5_delete_cluster_no_cascade :
    saveClusterState DB.empty 1 demoStored = .ok (c5db1, { demoStored with id := 1 }) ∧
    saveResource c5db1 2 demoResource = .ok c5db2 ∧
    deleteClusterState c5db2 "demo" = .ok c5db3 ∧
    listResources c5db3 "demo" =
      [{ demoResource with createdAt := 2, updatedAt := 2 }] ∧
    listResources c5db3 "demo" ≠ [] :=
  ⟨rfl, rfl, rfl, rfl, by decide⟩

/-! ## C6 — duplicate cluster names: first succeeds, second conflicts -/

/-- Claim C6: inserting two new records with the same name: the first
succeeds and the second is rejected with the unique-constraint error, a
value distinct from the generic I/O failure. -/
theorem c6_duplicate_name_conflict (db : DB) (t1 t2 : Int) (s t : ClusterState)
    (hs : s.id = 0) (ht : t.id = 0) (hname : t.name = s.name)
    (habs : db.clusters.find? (fun r => r.name == s.name) = none) :
    ∃ db' s', saveClusterState db t1 s = .ok (db', s') ∧
      saveClusterState db' t2 t = .error .constraintUnique ∧
      SqlErr.constraintUnique ≠ SqlErr.ioFailure := by
  refine ⟨{ db with
             clusters := db.clusters ++ [insertedClusterRow db t1 s],
             nextClusterId := db.nextClusterId + 1 },
          { s with id := db.nextClusterId }, ?_, ?_, by decide⟩
  · simp [saveClusterState, insertCluster, hs, habs]
  · simp [saveClusterState, insertCluster, ht, hname, List.find?_append, habs,
          insertedClusterRow]

/-- Witness for C6 on an empty database. -/
theorem c6_duplicate_name_conflict_witness :
    demoStored.id = 0 ∧
    (∃ db' s', saveClusterState DB.empty 1 demoStored = .ok (db', s') ∧
       saveClusterState db' 2 demoStored = .error .constraintUnique ∧
       SqlErr.constraintUnique ≠ SqlErr.ioFailure) :=
  ⟨rfl, c6_duplicate_name_conflict DB.empty 1 2 demoStored demoStored rfl rfl rfl rfl⟩

/-! ## C7 — absence is not an error; storage failures still are -/

/-- Claim C7: `GetClusterState` for a name with no stored row returns the
non-error absent result `.ok none`, while a driver failure in the row scan
is propagated as an error unchanged. -/
theorem c7_absent_cluster_not_error (db : DB) (name : String) (e : SqlErr)
    (habs : db.clusters.find? (fun r => r.name == name) = none) :
    getClusterState db name = .ok none ∧
    getClusterStateFrom db (.error e) = .error e := by
  constructor
  · simp [getClusterState, queryClusterRow, habs, getClusterStateFrom]
  · rfl

/-- Witness for C7 on an empty database and an I/O failure. -/
theorem c7_absent_cluster_not_error_witness :
    DB.empty.clusters.find? (fun r => r.name == "ghost") = none ∧
    (getClusterState DB.empty "ghost" = .ok none ∧
     getClusterStateFrom DB.empty (.error .ioFailure) = .error .ioFailure) :=
  ⟨rfl, c7_absent_cluster_not_error DB.empty "ghost" .ioFailure rfl⟩

/-! ## C8 — drift compares exactly status, nodeCount and version -/

/-- Claim C8: the drift comparison collects a status mismatch exactly when
the statuses differ, a node-count mismatch exactly when the counts differ,
and a version mismatch exactly when the versions differ and the observed
version is non-empty; on the spec's concrete example (stored node count 2,
observed 3, equal status and version) it yields exactly one mismatch, on
the node count. -/
theorem c8_drift_compares_exact_fields (s : ClusterState) (o : ProviderCluster) :
    (Drift.statusDrift s.status o.status ∈ driftMessages s o ↔ s.status ≠ o.status) ∧
    (Drift.nodesDrift s.nodeCount o.nodeCount ∈ driftMessages s o ↔
      s.nodeCount ≠ o.nodeCount) ∧
    (Drift.versionDrift s.version o.version ∈ driftMessages s o ↔
      (s.version ≠ o.version ∧ o.version ≠ "")) ∧
    driftMessages demoStored demoObserved = [.nodesDrift 2 3] := by
  refine ⟨?_, ?_, ?_, by decide⟩ <;>
  · by_cases h1 : s.status = o.status <;>
    by_cases h2 : s.nodeCount = o.nodeCount <;>
    by_cases h3 : s.version = o.version <;>
    by_cases h4 : o.version = "" <;>
      simp_all [driftMessages]

/-! ## C9 — save/get round trip does not preserve createdAt -/

/-- The database after saving the demo record (whose `createdAt` is 5) at
t = 10. -/
def c9db1 : DB :=
  { clusters := [insertedClusterRow DB.empty 10 demoStored],
    resources := [], nextClusterId := 2 }

/-- Counterexample to claim C9: saving a fresh record carrying
`createdAt = 5` at t = 10 and reading it back returns `createdAt = 10` —
the insert takes the column default `CURRENT_TIMESTAMP` instead of the
record's value, so the fetched record is not equal to the saved one in all
fields except `updatedAt`. -/
theorem c9_roundtrip_createdAt_counterexample :
    saveClusterState DB.empty 10 demoStored = .ok (c9db1, { demoStored with id := 1 }) ∧
    getClusterState c9db1 "demo" =
      .ok (some (rowToState c9db1 (insertedClusterRow DB.empty 10 demoStored))) ∧
    (rowToState c9db1 (insertedClusterRow DB.empty 10 demoStored)).createdAt = 10 ∧
    demoStored.createdAt = 5 ∧
    (rowToState c9db1 (insertedClusterRow DB.empty 10 demoStored)).createdAt ≠
      demoStored.createdAt :=
  ⟨rfl, rfl, rfl, rfl, by decide⟩

/-- Claim C9 as amended: saving a fresh record (no assigned id, name not
yet stored, `updatedAt` not in the future) and reading it back returns a
record equal to the saved one in name, provider, region, status, node
count, version, config, metadata and createdBy; `updatedAt` is at least
its value before the save; but `createdAt` and `updatedAt` are both set to
the save time rather than preserved. -/
theorem c9_roundtrip_amended (db : DB) (now : Int) (s : ClusterState)
    (hid : s.id = 0)
    (habs : db.clusters.find? (fun r => r.name == s.name) = none)
    (hup : s.updatedAt ≤ now) :
    ∃ db' s' rec, saveClusterState db now s = .ok (db', s') ∧
      getClusterState db' s.name = .ok (some rec) ∧
      rec.name = s.name ∧ rec.provider = s.provider ∧ rec.region = s.region ∧
      rec.status = s.status ∧ rec.nodeCount = s.nodeCount ∧
      rec.version = s.version ∧ rec.config = s.config ∧
      rec.metadata = s.metadata ∧ rec.createdBy = s.createdBy ∧
      s.updatedAt ≤ rec.updatedAt ∧ rec.createdAt = now ∧ rec.updatedAt = now := by
  refine ⟨{ db with
             clusters := db.clusters ++ [insertedClusterRow db now s],
             nextClusterId := db.nextClusterId + 1 },
          { s with id := db.nextClusterId },
          rowToState { db with
             clusters := db.clusters ++ [insertedClusterRow db now s],
             nextClusterId := db.nextClusterId + 1 } (insertedClusterRow db now s),
          ?_, ?_, rfl, rfl, rfl, rfl, rfl, rfl, rfl, rfl, rfl, hup, rfl, rfl⟩
  · simp [saveClusterState, insertCluster, hid, habs]
  · simp [getClusterState, getClusterStateFrom, queryClusterRow,
          List.find?_append, habs, insertedClusterRow]

/-- Witness for the amended C9 at the concrete demo record. -/
theorem c9_roundtrip_amended_witness :
    demoStored.id = 0 ∧ demoStored.updatedAt ≤ 10 ∧
    (∃ db' s' rec, saveClusterState DB.empty 10 demoStored = .ok (db', s') ∧
      getClusterState db' demoStored.name = .ok (some rec) ∧
      rec.name = demoStored.name ∧ rec.provider = demoStored.provider ∧
      rec.region = demoStored.region ∧ rec.status = demoStored.status ∧
      rec.nodeCount = demoStored.nodeCount ∧ rec.version = demoStored.version ∧
      rec.config = demoStored.config ∧ rec.metadata = demoStored.metadata ∧
      rec.createdBy = demoStored.createdBy ∧
      demoStored.updatedAt ≤ rec.updatedAt ∧ rec.createdAt = 10 ∧
      rec.updatedAt = 10) :=
  ⟨rfl, by decide, c9_roundtrip_amended DB.empty 10 demoStored rfl rfl (by decide)⟩

/-! ## C10 — SaveResource silently replaces and resets createdAt -/

/-- Claim C10: for a resource whose id or unique tuple already collides
with a stored row, `SaveResource` succeeds (never a Conflict error), the
new row is stored, every previously colliding row is replaced so that the
new row is the only one left colliding with itself, and its `createdAt` is
the insertion default — the current time — rather than the replaced row's
value. -/
theorem c10_save_resource_replaces (db : DB) (now : Int) (r : Resource)
    (hexists : ∃ row ∈ db.resources,
      resourceConflict row (resourceToRow r now) = true) :
    ∃ db', saveResource db now r = .ok db' ∧
      resourceToRow r now ∈ db'.resources ∧
      db'.resources.filter (fun x => resourceConflict x (resourceToRow r now)) =
        [resourceToRow r now] ∧
      (resourceToRow r now).createdAt = now := by
  refine ⟨_, rfl, ?_, ?_, rfl⟩
  · simp [saveResource]
  · simp only [saveResource, List.filter_append, List.filter_filter]
    simp [resourceConflict]
    tauto

/-- Witness for C10: re-saving the demo resource at t = 2 over its t = 1
copy. -/
theorem c10_save_resource_replaces_witness :
    (∃ row ∈ ({ clusters := [], resources := [resourceToRow demoResource 1],
                nextClusterId := 1 } : DB).resources,
       resourceConflict row (resourceToRow demoResource 2) = true) ∧
    (∃ db', saveResource { clusters := [], resources := [resourceToRow demoResource 1],
                           nextClusterId := 1 } 2 demoResource = .ok db' ∧
      resourceToRow demoResource 2 ∈ db'.resources ∧
      db'.resources.filter
          (fun x => resourceConflict x (resourceToRow demoResource 2)) =
        [resourceToRow demoResource 2] ∧
      (resourceToRow demoResource 2).createdAt = 2) :=
  ⟨⟨resourceToRow demoResource 1, by decide, by decide⟩,
   c10_save_resource_replaces _ 2 demoResource
     ⟨resourceToRow demoResource 1, by decide, by decide⟩⟩

end Atlas
